import Mathlib

/-!
Shallow embedding of the AWS credential-resolution chain and the SigV4/SigV4a
signing orchestrator from `plugins/rest/aws.go`.

Modelling conventions:
* Time (`time.Time`) is modelled as `Int`, measured in seconds; `t.Before(u)`
  is the strict order `t < u`, and `time.Minute * 5` is `fiveMinutes = 300`.
* The process environment is a partial map `Env := String → Option String`;
  `os.Getenv` returns the empty string for an unset variable, `os.LookupEnv`
  tests presence.
* Network I/O, file reads, the ambient clock (`time.Now()`) and the
  JSON/XML decoders (declared external collaborators by the repository's
  documentation) are gathered into explicit `World` records; each credential
  service's refresh is a pure function of its state and a world, returning the
  new state, an optional error message, and the list of HTTP requests it
  issued.
* The SigV4/SigV4a byte-level signature computation (`aws.SignV4`,
  `aws.SignV4a`) is an external collaborator; `signV4` takes both signer
  functions as parameters.
* `http.Header` is a map from canonical MIME keys to lists of values; it is
  modelled as a total function `String → List String` (absent keys map to
  `[]`), with `Set`/`Add`/`Get` canonicalising the key exactly as Go's
  `textproto.CanonicalMIMEHeaderKey` does.
-/

namespace AwsRest

/-- Environment: `some v` when the variable is set (possibly to `""`),
`none` when unset. -/
abbrev Env := String → Option String

/-- `os.Getenv`: the value, or `""` when unset. -/
def getenv (env : Env) (k : String) : String := (env k).getD ""

def ec2DefaultCredServicePath : String :=
  "http://169.254.169.254/latest/meta-data/iam/security-credentials/"

def ec2DefaultTokenPath : String := "http://169.254.169.254/latest/api/token"

def ecsDefaultCredServicePath : String := "http://169.254.170.2"

def ecsRelativePathEnvVar : String := "AWS_CONTAINER_CREDENTIALS_RELATIVE_URI"

def stsDefaultPath : String := "https://sts.amazonaws.com"

def accessKeyEnvVar : String := "AWS_ACCESS_KEY_ID"

def secretKeyEnvVar : String := "AWS_SECRET_ACCESS_KEY"

def securityTokenEnvVar : String := "AWS_SECURITY_TOKEN"

def sessionTokenEnvVar : String := "AWS_SESSION_TOKEN"

def awsRegionEnvVar : String := "AWS_REGION"

def awsRoleArnEnvVar : String := "AWS_ROLE_ARN"

def awsWebIdentityTokenFileEnvVar : String := "AWS_WEB_IDENTITY_TOKEN_FILE"

/-- `time.Minute * 5`, in seconds. -/
def fiveMinutes : Int := 300

/-- `aws.Credentials`: an immutable snapshot of AWS credentials. -/
structure Credentials where
  AccessKey : String := ""
  SecretKey : String := ""
  SessionToken : String := ""
  RegionName : String := ""
deriving DecidableEq, Repr

/-- `isECS`: the ECS relative-path variable is set (mere presence counts,
`os.LookupEnv`). -/
def isECS (env : Env) : Bool := (env ecsRelativePathEnvVar).isSome

/-! ### Header model (Go `net/http.Header` / `net/textproto`) -/

/-- Valid characters of a MIME header field name
(`textproto.validHeaderFieldByte`). -/
def isValidHeaderFieldChar (c : Char) : Bool :=
  c.isAlphanum || c = '!' || c = '#' || c = '$' || c = '%' || c = '&' ||
  c = Char.ofNat 39 || c = '*' || c = '+' || c = '-' || c = '.' ||
  c = Char.ofNat 94 || c = '_' || c = Char.ofNat 96 || c = '|' || c = Char.ofNat 126

/-- Word-wise canonicalisation: uppercase at the start and after each
hyphen, lowercase elsewhere. -/
def canonicalKeyAux : List Char → Bool → List Char
  | [], _ => []
  | c :: cs, upper =>
    (if upper then c.toUpper else c.toLower) :: canonicalKeyAux cs (c = '-')

/-- `textproto.CanonicalMIMEHeaderKey`: canonicalise a valid field name,
return invalid names unchanged. -/
def canonicalMIMEHeaderKey (s : String) : String :=
  if s.toList.all isValidHeaderFieldChar then
    String.mk (canonicalKeyAux s.toList true)
  else s

/-- `http.Header`: canonical key ↦ ordered list of values; absent keys map
to `[]`. -/
abbrev Header := String → List String

def emptyHeader : Header := fun _ => []

/-- `Header.Set`: replace all values of the canonical key with a single one. -/
def headerSet (h : Header) (k v : String) : Header :=
  fun q => if q = canonicalMIMEHeaderKey k then [v] else h q

/-- `Header.Add`: append a value under the canonical key. -/
def headerAdd (h : Header) (k v : String) : Header :=
  fun q => if q = canonicalMIMEHeaderKey k then h q ++ [v] else h q

/-- `Header.Get`: the first value under the canonical key, or `""`. -/
def headerGet (h : Header) (k : String) : String :=
  (h (canonicalMIMEHeaderKey k)).headD ""

/-! ### Environment credential service (`awsEnvironmentCredentialService`) -/

/-- `awsEnvironmentCredentialService.credentials`: read the environment on
every call; returns the credentials built so far alongside an error naming
the first missing required variable. -/
def envCredentials (env : Env) : Credentials × Option String :=
  let c1 : Credentials := { AccessKey := getenv env accessKeyEnvVar }
  if c1.AccessKey = "" then
    (c1, some ("no " ++ accessKeyEnvVar ++ " set in environment"))
  else
    let c2 : Credentials := { c1 with SecretKey := getenv env secretKeyEnvVar }
    if c2.SecretKey = "" then
      (c2, some ("no " ++ secretKeyEnvVar ++ " set in environment"))
    else
      let c3 : Credentials := { c2 with RegionName := getenv env awsRegionEnvVar }
      if c3.RegionName = "" then
        (c3, some ("no " ++ awsRegionEnvVar ++ " set in environment"))
      else
        let tok := getenv env sessionTokenEnvVar
        let tok := if tok = "" then getenv env securityTokenEnvVar else tok
        ({ c3 with SessionToken := tok }, none)

/-! ### HTTP plumbing shared by the two caching services -/

/-- An outgoing HTTP request (`http.Request`): method, URL, headers and a
form body (empty for GETs/PUTs built here). -/
structure HttpRequest where
  method : String
  url : String
  header : Header
  body : String

/-- An HTTP response as the services consume it: numeric status code,
status line, and the already-read body. -/
structure HttpResponse where
  statusCode : Nat
  status : String
  body : String

/-- `doMetaDataRequestWithClient`: run the request, demand status 200, and
return the body; errors are prefixed with the request description. -/
def doMetaDataRequestWithClient (httpDo : HttpRequest → Except String HttpResponse)
    (req : HttpRequest) (desc : String) : Except String String :=
  match httpDo req with
  | .error e => .error (desc ++ " HTTP request failed: " ++ e)
  | .ok resp =>
    if resp.statusCode ≠ 200 then
      .error (desc ++ " HTTP request returned unexpected status: " ++ resp.status)
    else
      .ok resp.body

/-! ### Instance-metadata credential service (`awsMetadataCredentialService`) -/

/-- `awsMetadataCredentialService`: EC2/ECS metadata provider with an owned
credential cache. -/
structure awsMetadataCredentialService where
  RoleName : String := ""
  RegionName : String := ""
  creds : Credentials := {}
  expiration : Int := 0
  credServicePath : String := ""
  tokenPath : String := ""
deriving DecidableEq, Repr

/-- JSON payload of the EC2/ECS metadata credential response. -/
structure metadataPayload where
  Code : String := ""
  AccessKeyID : String := ""
  SecretAccessKey : String := ""
  Token : String := ""
  Expiration : Int := 0
deriving DecidableEq, Repr

/-- The world a metadata refresh runs in: the ambient clock read by
`time.Now()`, the process environment, the HTTP client, and the external
JSON decoder for the payload. -/
structure MetaWorld where
  now : Int
  env : Env
  httpDo : HttpRequest → Except String HttpResponse
  parseMetadata : String → Except String metadataPayload

/-- `awsMetadataCredentialService.urlForMetadataService`: test override,
else EC2 per-role URL, else ECS relative URI, else a configuration error. -/
def urlForMetadataService (cs : awsMetadataCredentialService) (env : Env) :
    Except String String :=
  if cs.credServicePath ≠ "" then .ok (cs.credServicePath ++ cs.RoleName)
  else if cs.RoleName ≠ "" then .ok (ec2DefaultCredServicePath ++ cs.RoleName)
  else if isECS env then .ok (ecsDefaultCredServicePath ++ getenv env ecsRelativePathEnvVar)
  else .error "metadata endpoint cannot be determined from settings and environment"

/-- `awsMetadataCredentialService.tokenRequest`: IMDSv2 token handshake
request — `PUT` on the token endpoint with a 60-second TTL hint header. -/
def tokenRequest (cs : awsMetadataCredentialService) : HttpRequest :=
  { method := "PUT"
    url := if cs.tokenPath ≠ "" then cs.tokenPath else ec2DefaultTokenPath
    header := headerSet emptyHeader "X-aws-ec2-metadata-token-ttl-seconds" "60"
    body := "" }

/-- Tail of the metadata refresh after the optional token handshake: issue
the metadata GET, decode, validate `Code` on the EC2 path, and replace the
cache on success. -/
def metaFetchAndStore (cs : awsMetadataCredentialService) (w : MetaWorld)
    (req : HttpRequest) (calls : List HttpRequest) :
    awsMetadataCredentialService × Option String × List HttpRequest :=
  match doMetaDataRequestWithClient w.httpDo req "metadata" with
  | .error e => (cs, some e, calls ++ [req])
  | .ok body =>
    match w.parseMetadata body with
    | .error e =>
      (cs, some ("failed to parse credential response from metadata service: " ++ e),
       calls ++ [req])
    | .ok payload =>
      if cs.RoleName ≠ "" ∧ payload.Code ≠ "Success" then
        (cs, some ("metadata service query did not succeed: " ++ payload.Code),
         calls ++ [req])
      else
        ({ cs with
            expiration := payload.Expiration
            creds := { AccessKey := payload.AccessKeyID
                       SecretKey := payload.SecretAccessKey
                       SessionToken := payload.Token
                       RegionName := cs.RegionName } },
         none, calls ++ [req])

/-- The metadata GET (`http.NewRequest(http.MethodGet, metaDataURL, nil)`),
with whatever headers have been set on it. -/
def metadataRequest (url : String) (h : Header) : HttpRequest :=
  { method := "GET", url := url, header := h, body := "" }

/-- `awsMetadataCredentialService.refreshFromService`: skip when the cache
is fresh (`now + 5min < expiration`, the clock coming from the ambient
world, not a parameter); else resolve the endpoint, do the IMDSv2 token
handshake unless running under ECS, fetch and store. Returns the new state,
an optional error, and the HTTP requests issued. -/
def refreshFromServiceMeta (cs : awsMetadataCredentialService) (w : MetaWorld) :
    awsMetadataCredentialService × Option String × List HttpRequest :=
  if w.now + fiveMinutes < cs.expiration then (cs, none, [])
  else
    match urlForMetadataService cs w.env with
    | .error e => (cs, some e, [])
    | .ok metaDataURL =>
      if isECS w.env then
        metaFetchAndStore cs w (metadataRequest metaDataURL emptyHeader) []
      else
        match doMetaDataRequestWithClient w.httpDo (tokenRequest cs) "metadata token" with
        | .error e => (cs, some e, [tokenRequest cs])
        | .ok tok =>
          metaFetchAndStore cs w
            (metadataRequest metaDataURL
              (headerSet emptyHeader "X-aws-ec2-metadata-token" tok))
            [tokenRequest cs]

/-- `awsMetadataCredentialService.credentials`: refresh, then return the
(possibly updated) cached credentials together with any refresh error; also
exposes the post-call state and the requests issued. -/
def credentialsMeta (cs : awsMetadataCredentialService) (w : MetaWorld) :
    Credentials × Option String × awsMetadataCredentialService × List HttpRequest :=
  let r := refreshFromServiceMeta cs w
  (r.1.creds, r.2.1, r.1, r.2.2)

/-! ### Web-identity credential service (`awsWebIdentityCredentialService`) -/

/-- `awsWebIdentityCredentialService`: STS AssumeRoleWithWebIdentity
provider with an owned credential cache. -/
structure awsWebIdentityCredentialService where
  RoleArn : String := ""
  WebIdentityTokenFile : String := ""
  RegionName : String := ""
  SessionName : String := ""
  stsURL : String := ""
  creds : Credentials := {}
  expiration : Int := 0
deriving DecidableEq, Repr

/-- Nested `Credentials` block of the STS XML response envelope. -/
structure stsResultCredentials where
  SessionToken : String := ""
  SecretAccessKey : String := ""
  Expiration : Int := 0
  AccessKeyID : String := ""
deriving DecidableEq, Repr

/-- The world an STS refresh runs in: ambient clock, token-file reader,
HTTP client, and the external XML decoder for the response envelope. -/
structure WebWorld where
  now : Int
  readFile : String → Except String String
  httpDo : HttpRequest → Except String HttpResponse
  parseSTS : String → Except String stsResultCredentials

/-- `awsWebIdentityCredentialService.populateFromEnv`: unconditionally
overwrite role ARN, then token-file path, from the environment, erroring on
the first empty one; the region is only filled from the environment when
not already configured. -/
def populateFromEnv (cs : awsWebIdentityCredentialService) (env : Env) :
    awsWebIdentityCredentialService × Option String :=
  let cs := { cs with RoleArn := getenv env awsRoleArnEnvVar }
  if cs.RoleArn = "" then
    (cs, some ("no " ++ awsRoleArnEnvVar ++ " set in environment"))
  else
    let cs := { cs with WebIdentityTokenFile := getenv env awsWebIdentityTokenFileEnvVar }
    if cs.WebIdentityTokenFile = "" then
      (cs, some ("no " ++ awsWebIdentityTokenFileEnvVar ++ " set in environment"))
    else
      if cs.RegionName = "" then
        let cs := { cs with RegionName := getenv env awsRegionEnvVar }
        if cs.RegionName = "" then
          (cs, some ("no " ++ awsRegionEnvVar ++ " set in environment or configuration"))
        else (cs, none)
      else (cs, none)

/-- `awsWebIdentityCredentialService.stsPath`: explicit override, else the
region-derived regional endpoint (region lowercased), else the global
default. -/
def stsPath (cs : awsWebIdentityCredentialService) : String :=
  if cs.stsURL ≠ "" then cs.stsURL
  else if cs.RegionName ≠ "" then
    "https://sts." ++ cs.RegionName.toLower ++ ".amazonaws.com"
  else stsDefaultPath

/-- The `url.Values.Encode` form body of the STS POST, keys in sorted
order; percent-encoding of the values is an external concern and elided. -/
def stsFormBody (cs : awsWebIdentityCredentialService) (sessionName token : String) :
    String :=
  "Action=AssumeRoleWithWebIdentity&RoleArn=" ++ cs.RoleArn ++
  "&RoleSessionName=" ++ sessionName ++ "&Version=2011-06-15" ++
  "&WebIdentityToken=" ++ token

/-- The role session name: configured, else the fixed default. -/
def webSessionName (cs : awsWebIdentityCredentialService) : String :=
  if cs.SessionName = "" then "open-policy-agent" else cs.SessionName

/-- The STS `POST` request with the form-encoded AssumeRoleWithWebIdentity
parameters and the form content type. -/
def stsRequest (cs : awsWebIdentityCredentialService) (tokenData : String) : HttpRequest :=
  { method := "POST"
    url := stsPath cs
    header := headerAdd emptyHeader "Content-Type" "application/x-www-form-urlencoded"
    body := stsFormBody cs (webSessionName cs) tokenData }

/-- `awsWebIdentityCredentialService.refreshFromService`: skip when the
cache is fresh (ambient clock again); else read the token file fresh from
disk, POST the AssumeRoleWithWebIdentity form to the STS endpoint, decode
the XML envelope, and replace the cache on success. -/
def refreshFromServiceWeb (cs : awsWebIdentityCredentialService) (w : WebWorld) :
    awsWebIdentityCredentialService × Option String × List HttpRequest :=
  if w.now + fiveMinutes < cs.expiration then (cs, none, [])
  else
    match w.readFile cs.WebIdentityTokenFile with
    | .error e => (cs, some ("unable to read web token for sts HTTP request: " ++ e), [])
    | .ok tokenData =>
      match doMetaDataRequestWithClient w.httpDo (stsRequest cs tokenData) "STS" with
      | .error e => (cs, some e, [stsRequest cs tokenData])
      | .ok respBody =>
        match w.parseSTS respBody with
        | .error e =>
          (cs, some ("failed to parse credential response from STS service: " ++ e),
           [stsRequest cs tokenData])
        | .ok p =>
          ({ cs with
              expiration := p.Expiration
              creds := { AccessKey := p.AccessKeyID
                         SecretKey := p.SecretAccessKey
                         SessionToken := p.SessionToken
                         RegionName := cs.RegionName } },
           none, [stsRequest cs tokenData])

/-- `awsWebIdentityCredentialService.credentials`: refresh, then return the
(possibly updated) cached credentials together with any refresh error. -/
def credentialsWeb (cs : awsWebIdentityCredentialService) (w : WebWorld) :
    Credentials × Option String × awsWebIdentityCredentialService × List HttpRequest :=
  let r := refreshFromServiceWeb cs w
  (r.1.creds, r.2.1, r.1, r.2.2)

/-! ### Request signing orchestrator (`signV4`) -/

/-- An outgoing request to be signed (`*http.Request` as `signV4` uses it):
`body = none` models a nil `req.Body`. -/
structure Request where
  method : String
  url : String
  header : Header
  body : Option String

/-- The classic SigV4 signer (`aws.SignV4`), an external collaborator:
from the request headers, method, URL, body bytes, service name,
credentials and timestamp it produces the Authorization header value plus
supplementary headers. -/
abbrev SignerV4 :=
  Header → String → String → String → String → Credentials → Int →
    String × List (String × String)

/-- The SigV4a signer (`aws.SignV4a`), an external collaborator: same
inputs, but it returns a complete replacement header set. -/
abbrev SignerV4a :=
  Header → String → String → String → String → Credentials → Int → Header

/-- The body bytes used as signing input: a nil body signs an empty byte
sequence. -/
def signingInputBody : Option String → String
  | none => ""
  | some b => b

/-- `Header.Add` folded over the supplementary headers returned by the
SigV4 signer (Go iterates the map; adds at distinct keys commute). -/
def addAll (h : Header) (l : List (String × String)) : Header :=
  l.foldl (fun h kv => headerAdd h kv.1 kv.2) h

/-- Reading the body and installing a fresh reader with the same bytes:
on the value level this re-installs exactly the bytes that were read. -/
def restoreBody (req : Request) : Request :=
  match req.body with
  | none => req
  | some b => { req with body := some b }

/-- `signV4`: read and transparently restore the body, resolve credentials
(aborting with a wrapped error on failure), then either replace the header
collection wholesale (scheme "4a") or set Authorization and add the
supplementary headers individually (any other scheme selector). Returns the
optional error and the request as it stands after the call. -/
def signV4 (sign4 : SignerV4) (sign4a : SignerV4a) (req : Request)
    (service : String) (credResult : Except String Credentials)
    (theTime : Int) (sigVersion : String) : Option String × Request :=
  let body := signingInputBody req.body
  let req := restoreBody req
  match credResult with
  | .error e => (some ("error getting AWS credentials: " ++ e), req)
  | .ok creds =>
    let now := theTime
    if sigVersion = "4a" then
      (none, { req with header := sign4a req.header req.method req.url body service creds now })
    else
      let r := sign4 req.header req.method req.url body service creds now
      (none, { req with header := addAll (headerSet req.header "Authorization" r.1) r.2 })

/-! ### Concrete instances used to exercise the theorems -/

/-- An empty process environment. -/
def noEnv : Env := fun _ => none

/-- An environment with exactly the three variables the environment source
requires, and no session/security token. -/
def envThree : Env := fun k =>
  if k = "AWS_ACCESS_KEY_ID" then some "AKID" else
  if k = "AWS_SECRET_ACCESS_KEY" then some "SECRET" else
  if k = "AWS_REGION" then some "us-east-1" else none

/-- A world whose network, parser and file system all fail. -/
def failMetaWorld : MetaWorld :=
  { now := 0
    env := noEnv
    httpDo := fun _ => .error "connection refused"
    parseMetadata := fun _ => .error "unexpected end of JSON input" }

/-- A world whose STS collaborators all fail. -/
def failWebWorld : WebWorld :=
  { now := 0
    readFile := fun _ => .error "no such file or directory"
    httpDo := fun _ => .error "connection refused"
    parseSTS := fun _ => .error "EOF" }

/-- A metadata service with a warm cache expiring at time 1000. -/
def csMetaFresh : awsMetadataCredentialService :=
  { creds := { AccessKey := "CACHEDKEY", SecretKey := "CACHEDSECRET"
               SessionToken := "CACHEDTOKEN", RegionName := "us-east-1" }
    expiration := 1000 }

/-- A web-identity service with a warm cache expiring at time 1000. -/
def csWebFresh : awsWebIdentityCredentialService :=
  { creds := { AccessKey := "CACHEDKEY", SecretKey := "CACHEDSECRET"
               SessionToken := "CACHEDTOKEN", RegionName := "us-west-1" }
    expiration := 1000 }

/-- An EC2-configured metadata service with a cache expiring at time 1000. -/
def csClock : awsMetadataCredentialService :=
  { RoleName := "my_iam_role", expiration := 1000 }

/-- Same world as `wClockB` except for the ambient clock reading. -/
def wClockA : MetaWorld :=
  { now := 0
    env := noEnv
    httpDo := fun _ => .error "down"
    parseMetadata := fun _ => .error "bad" }

/-- Same world as `wClockA` except for the ambient clock reading. -/
def wClockB : MetaWorld := { wClockA with now := 900 }

/-- A metadata payload whose `Code` is not "Success". -/
def pFail : metadataPayload :=
  { Code := "Failure", AccessKeyID := "AK", SecretAccessKey := "SK"
    Token := "TK", Expiration := 500 }

/-- A world whose HTTP calls all return 200 with a fixed body and whose
parser always yields `pFail`. -/
def wCode : MetaWorld :=
  { now := 0
    env := noEnv
    httpDo := fun _ => .ok { statusCode := 200, status := "200 OK", body := "RESP" }
    parseMetadata := fun _ => .ok pFail }

/-- `wCode` in an ECS container environment. -/
def wCodeECS : MetaWorld :=
  { wCode with env := fun k => if k = ecsRelativePathEnvVar then some "/v2/creds" else none }

/-- A concrete classic SigV4 signer used to exercise `signV4`. -/
def exSign4 : SignerV4 := fun _ _ _ b svc c _ =>
  ("AUTH-" ++ b ++ "-" ++ svc ++ "-" ++ c.AccessKey,
   [("X-Amz-Date", "D"), ("Host", "H")])

/-- A concrete SigV4a signer used to exercise `signV4`. -/
def exSign4a : SignerV4a := fun _ _ _ _ _ _ _ =>
  headerSet emptyHeader "X-All" "new"

/-- A request with a pre-existing Authorization header, a multi-valued
Accept header and a non-empty body. -/
def exReq : Request :=
  { method := "GET"
    url := "https://mybucket.s3.amazonaws.com/bundle.tar.gz"
    header := headerAdd (headerAdd (headerSet emptyHeader "Authorization" "OLD")
                "Accept" "text/plain") "Accept" "text/html"
    body := some "PAYLOAD" }

/-- A state holding previously valid web-identity configuration. -/
def csWebOld : awsWebIdentityCredentialService :=
  { RoleArn := "arn:aws:iam::123456789012:role/old"
    WebIdentityTokenFile := "/var/run/old-token"
    RegionName := "eu-west-1" }

/-! ### Helper lemmas -/

/-- Every branch of `metaFetchAndStore` records the metadata request. -/
theorem metaFetchAndStore_calls (cs : awsMetadataCredentialService) (w : MetaWorld)
    (req : HttpRequest) (calls : List HttpRequest) :
    (metaFetchAndStore cs w req calls).2.2 = calls ++ [req] := by
  unfold metaFetchAndStore
  split <;> try rfl
  split <;> try rfl
  split <;> rfl

/-- An erroring `metaFetchAndStore` leaves the state untouched. -/
theorem metaFetchAndStore_error_state (cs : awsMetadataCredentialService)
    (w : MetaWorld) (req : HttpRequest) (calls : List HttpRequest) (e : String) :
    (metaFetchAndStore cs w req calls).2.1 = some e →
      (metaFetchAndStore cs w req calls).1 = cs := by
  unfold metaFetchAndStore
  split
  · exact fun _ => rfl
  · split
    · exact fun _ => rfl
    · split
      · exact fun _ => rfl
      · intro h; simp at h

/-- An erroring metadata refresh leaves the state untouched. -/
theorem refreshMeta_error_state (cs : awsMetadataCredentialService) (w : MetaWorld)
    (e : String) :
    (refreshFromServiceMeta cs w).2.1 = some e →
      (refreshFromServiceMeta cs w).1 = cs := by
  unfold refreshFromServiceMeta
  split
  · intro h; simp at h
  · split
    · exact fun _ => rfl
    · split
      · exact metaFetchAndStore_error_state _ _ _ _ _
      · split
        · exact fun _ => rfl
        · exact metaFetchAndStore_error_state _ _ _ _ _

/-- An erroring STS refresh leaves the state untouched. -/
theorem refreshWeb_error_state (cs : awsWebIdentityCredentialService) (w : WebWorld)
    (e : String) :
    (refreshFromServiceWeb cs w).2.1 = some e →
      (refreshFromServiceWeb cs w).1 = cs := by
  unfold refreshFromServiceWeb
  split
  · intro h; simp at h
  · split
    · exact fun _ => rfl
    · split
      · exact fun _ => rfl
      · split
        · exact fun _ => rfl
        · intro h; simp at h

/-- The metadata refresh is a no-op (no error, no state change, no network
call) exactly when the cache is fresh for the ambient clock. -/
theorem refreshMeta_skip_iff (cs : awsMetadataCredentialService) (w : MetaWorld) :
    refreshFromServiceMeta cs w = (cs, none, []) ↔
      w.now + fiveMinutes < cs.expiration := by
  unfold refreshFromServiceMeta
  split
  next hfresh => simp [hfresh]
  next hfresh =>
    simp only [iff_false_intro hfresh, iff_false]
    intro hEq
    split at hEq
    · simp at hEq
    · split at hEq
      · have := congrArg (fun t => t.2.2) hEq
        simp [metaFetchAndStore_calls] at this
      · split at hEq
        · simp at hEq
        · have := congrArg (fun t => t.2.2) hEq
          simp [metaFetchAndStore_calls] at this

/-- The STS refresh is a no-op exactly when the cache is fresh for the
ambient clock. -/
theorem refreshWeb_skip_iff (cs : awsWebIdentityCredentialService) (w : WebWorld) :
    refreshFromServiceWeb cs w = (cs, none, []) ↔
      w.now + fiveMinutes < cs.expiration := by
  unfold refreshFromServiceWeb
  split
  next hfresh => simp [hfresh]
  next hfresh =>
    simp only [iff_false_intro hfresh, iff_false]
    intro hEq
    split at hEq
    · simp at hEq
    · split at hEq
      · simp at hEq
      · split at hEq <;> simp at hEq

/-- Pointwise description of `addAll`: the values at a key are the old ones
followed by the added values whose canonical key matches. -/
theorem addAll_apply (l : List (String × String)) (h : Header) (k : String) :
    addAll h l k =
      h k ++ (l.filter (fun kv => canonicalMIMEHeaderKey kv.1 == k)).map Prod.snd := by
  induction l generalizing h with
  | nil => simp [addAll]
  | cons a t ih =>
    show addAll (headerAdd h a.1 a.2) t k = _
    rw [ih]
    by_cases hk : canonicalMIMEHeaderKey a.1 = k
    · simp [headerAdd, List.filter_cons, hk]
    · simp [headerAdd, List.filter_cons, hk, Ne.symm hk]

/-- `addAll` does not touch keys outside the canonical keys of the added
list. -/
theorem addAll_apply_not_mem (l : List (String × String)) (h : Header) (k : String)
    (hk : k ∉ l.map (fun kv => canonicalMIMEHeaderKey kv.1)) :
    addAll h l k = h k := by
  rw [addAll_apply]
  have : l.filter (fun kv => canonicalMIMEHeaderKey kv.1 == k) = [] := by
    rw [List.filter_eq_nil_iff]
    intro kv hkv hbeq
    exact hk (List.mem_map.mpr ⟨kv, hkv, by simpa using hbeq⟩)
  simp [this]

/-- In a list whose images under `f` are pairwise distinct, filtering for
the image of a member finds exactly that member. -/
theorem filter_eq_single_of_nodup_keys {α β : Type} [DecidableEq β] (f : α → β) :
    ∀ (l : List α) (x : α), x ∈ l → (l.map f).Nodup →
      l.filter (fun a => f a == f x) = [x] := by
  intro l
  induction l with
  | nil => intro x hx; cases hx
  | cons a t ih =>
    intro x hx hnd
    rcases List.mem_cons.mp hx with hA | hT
    · subst hA
      have ht : t.filter (fun p => f p == f x) = [] := by
        rw [List.filter_eq_nil_iff]
        intro p hp hbeq
        exact (List.nodup_cons.mp hnd).1
          (List.mem_map.mpr ⟨p, hp, by simpa using hbeq⟩)
      simp [List.filter_cons, ht]
    · have hne : ¬ (f a == f x) = true := by
        intro hbeq
        have hfa : f a = f x := by simpa using hbeq
        exact (List.nodup_cons.mp hnd).1
          (hfa ▸ List.mem_map.mpr ⟨x, hT, rfl⟩)
      simp only [List.filter_cons, hne, if_neg, not_false_iff, Bool.false_eq_true]
      exact ih x hT (List.nodup_cons.mp hnd).2

/-- With pairwise-distinct canonical keys, `addAll` appends exactly the one
matching value at each added key. -/
theorem addAll_apply_mem (l : List (String × String)) (h : Header)
    (hnd : (l.map (fun kv => canonicalMIMEHeaderKey kv.1)).Nodup)
    (kv : String × String) (hkv : kv ∈ l) :
    addAll h l (canonicalMIMEHeaderKey kv.1) =
      h (canonicalMIMEHeaderKey kv.1) ++ [kv.2] := by
  rw [addAll_apply]
  have hfilter := filter_eq_single_of_nodup_keys
    (fun kv : String × String => canonicalMIMEHeaderKey kv.1) l kv hkv (by simpa using hnd)
  simp only [hfilter, List.map_cons, List.map_nil]

/-- Re-installing the read bytes is the identity on the request value. -/
theorem restoreBody_eq (req : Request) : restoreBody req = req := by
  unfold restoreBody
  cases hb : req.body
  · rfl
  next b =>
    show { method := req.method, url := req.url, header := req.header, body := some b } = req
    rw [← hb]

/-- `signV4` on a failed credential resolution. -/
theorem signV4_error_eq (s4 : SignerV4) (s4a : SignerV4a) (req : Request)
    (service e : String) (t : Int) (v : String) :
    signV4 s4 s4a req service (.error e) t v =
      (some ("error getting AWS credentials: " ++ e), req) := by
  simp only [signV4, restoreBody_eq]

/-- `signV4` on successful credentials, scheme "4a". -/
theorem signV4_ok_4a_eq (s4 : SignerV4) (s4a : SignerV4a) (req : Request)
    (service : String) (creds : Credentials) (t : Int) :
    signV4 s4 s4a req service (.ok creds) t "4a" =
      (none, { req with header := (
        s4a req.header req.method req.url (signingInputBody req.body) service creds t) }) := by
  simp only [signV4, restoreBody_eq]
  rfl

/-- `signV4` on successful credentials, any scheme selector other than
"4a": the classic SigV4 path. -/
theorem signV4_ok_classic_eq (s4 : SignerV4) (s4a : SignerV4a) (req : Request)
    (service : String) (creds : Credentials) (t : Int) (v : String) (hv : v ≠ "4a") :
    signV4 s4 s4a req service (.ok creds) t v =
      (none, { req with header := (
        addAll
          (headerSet req.header "Authorization"
            (s4 req.header req.method req.url (signingInputBody req.body) service creds t).1)
          (s4 req.header req.method req.url (signingInputBody req.body) service creds t).2) }) := by
  simp only [signV4, restoreBody_eq, if_neg hv]

/-! ### Claim theorems -/

/-- C2: if obtaining credentials from the credential source fails, `signV4`
aborts immediately with a wrapped error naming the credential failure, and
no request header is added, removed, or modified by the call. -/
theorem signV4_abort_on_credential_error (s4 : SignerV4) (s4a : SignerV4a)
    (req : Request) (service e : String) (t : Int) (v : String) :
    (signV4 s4 s4a req service (.error e) t v).1 =
        some ("error getting AWS credentials: " ++ e)
  ∧ (signV4 s4 s4a req service (.error e) t v).2.header = req.header := by
  rw [signV4_error_eq]
  exact ⟨rfl, rfl⟩

/-- C9: every scheme selector other than "4a" (the empty string and
unrecognized values included) takes the classic SigV4 path, and the scheme
selector alone never makes `signV4` return an error: with resolved
credentials the call succeeds for every selector. -/
theorem signV4_scheme_selector_total (s4 : SignerV4) (s4a : SignerV4a)
    (req : Request) (service : String) (cr : Except String Credentials) (t : Int) :
    (∀ v, v ≠ "4a" →
        signV4 s4 s4a req service cr t v = signV4 s4 s4a req service cr t "4")
  ∧ (∀ v creds, cr = .ok creds → (signV4 s4 s4a req service cr t v).1 = none) := by
  constructor
  · intro v hv
    cases cr with
    | error e => rw [signV4_error_eq, signV4_error_eq]
    | ok creds =>
      rw [signV4_ok_classic_eq s4 s4a req service creds t v hv,
        signV4_ok_classic_eq s4 s4a req service creds t "4" (by decide)]
  · intro v creds hcr
    subst hcr
    by_cases hv : v = "4a"
    · subst hv
      rw [signV4_ok_4a_eq]
    · rw [signV4_ok_classic_eq s4 s4a req service creds t v hv]

/-- Witness for C9 at the selector `""` and concrete signers/request. -/
theorem signV4_scheme_selector_total_witness :
    ("" : String) ≠ "4a"
  ∧ signV4 exSign4 exSign4a exReq "s3" (.ok {}) 7 "" =
      signV4 exSign4 exSign4a exReq "s3" (.ok {}) 7 "4"
  ∧ (signV4 exSign4 exSign4a exReq "s3" (.ok {}) 7 "").1 = none :=
  ⟨by decide,
   (signV4_scheme_selector_total exSign4 exSign4a exReq "s3" (.ok {}) 7).1 "" (by decide),
   (signV4_scheme_selector_total exSign4 exSign4a exReq "s3" (.ok {}) 7).2 "" {} rfl⟩

/-- C4: after `signV4` returns successfully on a request carrying a body,
the request's body holds exactly the original bytes; a request with no body
is signed using the empty byte sequence as the signing input. -/
theorem signV4_body_restored (s4 : SignerV4) (s4a : SignerV4a) (req : Request)
    (service : String) (creds : Credentials) (t : Int) (v : String) :
    (∀ b, req.body = some b →
        (signV4 s4 s4a req service (.ok creds) t v).2.body = some b)
  ∧ (req.body = none →
        signV4 s4 s4a req service (.ok creds) t "4a" =
          (none, { req with header := (
            s4a req.header req.method req.url "" service creds t) })
      ∧ (v ≠ "4a" →
          signV4 s4 s4a req service (.ok creds) t v =
            (none, { req with header := (
              addAll
                (headerSet req.header "Authorization"
                  (s4 req.header req.method req.url "" service creds t).1)
                (s4 req.header req.method req.url "" service creds t).2) }))) := by
  constructor
  · intro b hb
    by_cases hv : v = "4a"
    · subst hv
      rw [signV4_ok_4a_eq]
      exact hb
    · rw [signV4_ok_classic_eq s4 s4a req service creds t v hv]
      exact hb
  · intro hnone
    constructor
    · rw [signV4_ok_4a_eq, hnone]
      rfl
    · intro hv
      rw [signV4_ok_classic_eq s4 s4a req service creds t v hv, hnone]
      rfl

/-- Witness for C4: the body of `exReq` survives classic signing, and a
bodyless request is signed over the empty byte string. -/
theorem signV4_body_restored_witness :
    exReq.body = some "PAYLOAD"
  ∧ (signV4 exSign4 exSign4a exReq "s3" (.ok {}) 7 "4").2.body = some "PAYLOAD"
  ∧ ({ exReq with body := none } : Request).body = none
  ∧ signV4 exSign4 exSign4a { exReq with body := none } "s3" (.ok {}) 7 "4a" =
      (none, { { exReq with body := none } with header := (
        exSign4a ({ exReq with body := none } : Request).header "GET"
          "https://mybucket.s3.amazonaws.com/bundle.tar.gz" "" "s3" {} 7) }) :=
  ⟨rfl,
   (signV4_body_restored exSign4 exSign4a exReq "s3" {} 7 "4").1 "PAYLOAD" rfl,
   rfl,
   ((signV4_body_restored exSign4 exSign4a { exReq with body := none } "s3" {} 7 "4").2 rfl).1⟩

/-- C5: `signV4` treats the two schemes asymmetrically. Scheme "4a"
replaces the request's entire header collection with the signer's output.
Scheme "4" sets Authorization to the signer's value — overwriting any
pre-existing Authorization, so exactly one Authorization value remains —
and adds each supplementary header individually, preserving every other
existing header (multi-valued ones included). -/
theorem signV4_scheme_asymmetry (s4 : SignerV4) (s4a : SignerV4a) (req : Request)
    (service : String) (creds : Credentials) (t : Int) (auth : String)
    (hs : List (String × String))
    (hsig : s4 req.header req.method req.url (signingInputBody req.body) service creds t
      = (auth, hs)) :
    ((signV4 s4 s4a req service (.ok creds) t "4a").2.header =
        s4a req.header req.method req.url (signingInputBody req.body) service creds t)
  ∧ ("Authorization" ∉ hs.map (fun kv => canonicalMIMEHeaderKey kv.1) →
        (signV4 s4 s4a req service (.ok creds) t "4").2.header "Authorization" = [auth])
  ∧ (∀ k, k ≠ "Authorization" → k ∉ hs.map (fun kv => canonicalMIMEHeaderKey kv.1) →
        (signV4 s4 s4a req service (.ok creds) t "4").2.header k = req.header k)
  ∧ ((hs.map (fun kv => canonicalMIMEHeaderKey kv.1)).Nodup →
        ∀ kv ∈ hs, canonicalMIMEHeaderKey kv.1 ≠ "Authorization" →
          (signV4 s4 s4a req service (.ok creds) t "4").2.header
              (canonicalMIMEHeaderKey kv.1) =
            req.header (canonicalMIMEHeaderKey kv.1) ++ [kv.2]) := by
  have hcanon : canonicalMIMEHeaderKey "Authorization" = "Authorization" := by decide
  have h4 : (signV4 s4 s4a req service (.ok creds) t "4").2.header =
      addAll (headerSet req.header "Authorization" auth) hs := by
    rw [signV4_ok_classic_eq s4 s4a req service creds t "4" (by decide), hsig]
  refine ⟨?_, ?_, ?_, ?_⟩
  · rw [signV4_ok_4a_eq]
  · intro hnotin
    rw [h4, addAll_apply_not_mem hs _ _ hnotin, headerSet, hcanon, if_pos rfl]
  · intro k hkA hknotin
    rw [h4, addAll_apply_not_mem hs _ _ hknotin, headerSet, hcanon, if_neg hkA]
  · intro hnd kv hkv hkA
    rw [h4, addAll_apply_mem hs _ hnd kv hkv, headerSet, hcanon, if_neg hkA]

/-- Witness for C5: on `exReq` (stale Authorization, two Accept values),
classic signing with `exSign4` leaves exactly one Authorization value and
preserves the multi-valued Accept header; "4a" signing replaces the whole
header set. -/
theorem signV4_scheme_asymmetry_witness :
    exSign4 exReq.header exReq.method exReq.url (signingInputBody exReq.body) "s3" {} 7
      = ("AUTH-PAYLOAD-s3-", [("X-Amz-Date", "D"), ("Host", "H")])
  ∧ ("Authorization" ∉
      ([("X-Amz-Date", "D"), ("Host", "H")] : List (String × String)).map
        (fun kv => canonicalMIMEHeaderKey kv.1))
  ∧ (signV4 exSign4 exSign4a exReq "s3" (.ok {}) 7 "4").2.header "Authorization"
      = ["AUTH-PAYLOAD-s3-"]
  ∧ (signV4 exSign4 exSign4a exReq "s3" (.ok {}) 7 "4").2.header "Accept"
      = exReq.header "Accept"
  ∧ (signV4 exSign4 exSign4a exReq "s3" (.ok {}) 7 "4a").2.header =
      exSign4a exReq.header exReq.method exReq.url (signingInputBody exReq.body) "s3" {} 7 :=
  ⟨rfl,
   by decide,
   (signV4_scheme_asymmetry exSign4 exSign4a exReq "s3" {} 7 "AUTH-PAYLOAD-s3-"
      [("X-Amz-Date", "D"), ("Host", "H")] rfl).2.1 (by decide),
   (signV4_scheme_asymmetry exSign4 exSign4a exReq "s3" {} 7 "AUTH-PAYLOAD-s3-"
      [("X-Amz-Date", "D"), ("Host", "H")] rfl).2.2.1 "Accept" (by decide) (by decide),
   (signV4_scheme_asymmetry exSign4 exSign4a exReq "s3" {} 7 "AUTH-PAYLOAD-s3-"
      [("X-Amz-Date", "D"), ("Host", "H")] rfl).1⟩

/-- C1: for both caching credential sources, a failed refresh leaves the
previously cached credentials and expiration completely unchanged, and
`credentials()` returns those previous cached values alongside the new
error; a first-ever failure (zero-value cache) returns zero-value
credentials with the error. -/
theorem credentials_stale_on_error
    (csm : awsMetadataCredentialService) (wm : MetaWorld)
    (csw : awsWebIdentityCredentialService) (ww : WebWorld) :
    (∀ e, (credentialsMeta csm wm).2.1 = some e →
        (credentialsMeta csm wm).1 = csm.creds ∧ (credentialsMeta csm wm).2.2.1 = csm)
  ∧ (∀ e, (credentialsWeb csw ww).2.1 = some e →
        (credentialsWeb csw ww).1 = csw.creds ∧ (credentialsWeb csw ww).2.2.1 = csw)
  ∧ (csm.creds = {} → ∀ e, (credentialsMeta csm wm).2.1 = some e →
        (credentialsMeta csm wm).1 = ({} : Credentials))
  ∧ (csw.creds = {} → ∀ e, (credentialsWeb csw ww).2.1 = some e →
        (credentialsWeb csw ww).1 = ({} : Credentials)) := by
  refine ⟨?_, ?_, ?_, ?_⟩
  · intro e he
    simp only [credentialsMeta] at he ⊢
    have h := refreshMeta_error_state csm wm e he
    rw [h]
    exact ⟨rfl, rfl⟩
  · intro e he
    simp only [credentialsWeb] at he ⊢
    have h := refreshWeb_error_state csw ww e he
    rw [h]
    exact ⟨rfl, rfl⟩
  · intro h0 e he
    simp only [credentialsMeta] at he ⊢
    have h := refreshMeta_error_state csm wm e he
    rw [h, h0]
  · intro h0 e he
    simp only [credentialsWeb] at he ⊢
    have h := refreshWeb_error_state csw ww e he
    rw [h, h0]

/-- Witness for C1: first-ever refresh failure of both zero-state services
returns zero-value credentials alongside the error, the cache untouched. -/
theorem credentials_stale_on_error_witness :
    (credentialsMeta {} failMetaWorld).2.1 =
        some "metadata endpoint cannot be determined from settings and environment"
  ∧ (credentialsMeta {} failMetaWorld).1 = ({} : Credentials)
  ∧ (credentialsMeta {} failMetaWorld).2.2.1 = ({} : awsMetadataCredentialService)
  ∧ (credentialsWeb {} failWebWorld).2.1 =
        some "unable to read web token for sts HTTP request: no such file or directory"
  ∧ (credentialsWeb {} failWebWorld).1 = ({} : Credentials)
  ∧ (credentialsWeb {} failWebWorld).2.2.1 = ({} : awsWebIdentityCredentialService) :=
  ⟨by decide,
   ((credentials_stale_on_error {} failMetaWorld {} failWebWorld).1
     "metadata endpoint cannot be determined from settings and environment" (by decide)).1,
   ((credentials_stale_on_error {} failMetaWorld {} failWebWorld).1
     "metadata endpoint cannot be determined from settings and environment" (by decide)).2,
   by decide,
   ((credentials_stale_on_error {} failMetaWorld {} failWebWorld).2.1
     "unable to read web token for sts HTTP request: no such file or directory" (by decide)).1,
   ((credentials_stale_on_error {} failMetaWorld {} failWebWorld).2.1
     "unable to read web token for sts HTTP request: no such file or directory" (by decide)).2⟩

/-- C3: for both caching sources, the refresh is skipped — no state change,
no error, and no network request — exactly when `now + 5 minutes` is
strictly before the cached expiration (the freshness check precedes any
network call); when fresh, `credentials()` returns exactly the cached
values whatever the backing service would now answer. -/
theorem cache_freshness_invariant
    (csm : awsMetadataCredentialService) (wm : MetaWorld)
    (csw : awsWebIdentityCredentialService) (ww : WebWorld) :
    (refreshFromServiceMeta csm wm = (csm, none, []) ↔
        wm.now + fiveMinutes < csm.expiration)
  ∧ (refreshFromServiceWeb csw ww = (csw, none, []) ↔
        ww.now + fiveMinutes < csw.expiration)
  ∧ (wm.now + fiveMinutes < csm.expiration →
        credentialsMeta csm wm = (csm.creds, none, csm, []))
  ∧ (ww.now + fiveMinutes < csw.expiration →
        credentialsWeb csw ww = (csw.creds, none, csw, [])) := by
  refine ⟨refreshMeta_skip_iff csm wm, refreshWeb_skip_iff csw ww, ?_, ?_⟩
  · intro hfresh
    simp only [credentialsMeta]
    rw [(refreshMeta_skip_iff csm wm).mpr hfresh]
  · intro hfresh
    simp only [credentialsWeb]
    rw [(refreshWeb_skip_iff csw ww).mpr hfresh]

/-- Witness for C3: warm caches expiring at 1000 read at time 0 are served
from cache with no error and no network call, although every network or
file operation of the ambient world would fail. -/
theorem cache_freshness_invariant_witness :
    (0 : Int) + fiveMinutes < csMetaFresh.expiration
  ∧ credentialsMeta csMetaFresh failMetaWorld = (csMetaFresh.creds, none, csMetaFresh, [])
  ∧ (0 : Int) + fiveMinutes < csWebFresh.expiration
  ∧ credentialsWeb csWebFresh failWebWorld = (csWebFresh.creds, none, csWebFresh, []) :=
  ⟨by decide,
   (cache_freshness_invariant csMetaFresh failMetaWorld csWebFresh failWebWorld).2.2.1
     (by decide),
   by decide,
   (cache_freshness_invariant csMetaFresh failMetaWorld csWebFresh failWebWorld).2.2.2
     (by decide)⟩

/-- C6 counterexample: the cache-freshness comparison reads the ambient
clock (`time.Now()` inside `refreshFromService`), not an explicit
timestamp parameter. With the service state and every non-clock world
component held fixed, two different ambient clock readings produce
different refresh-or-skip outcomes: at time 0 the call is served from
cache, at time 900 it attempts a refresh and fails. -/
theorem clock_seam_counterexample :
    wClockA.env = wClockB.env
  ∧ wClockA.httpDo = wClockB.httpDo
  ∧ wClockA.parseMetadata = wClockB.parseMetadata
  ∧ (refreshFromServiceMeta csClock wClockA).2.1 = none
  ∧ (refreshFromServiceMeta csClock wClockB).2.1 =
      some "metadata token HTTP request failed: down"
  ∧ refreshFromServiceMeta csClock wClockA ≠ refreshFromServiceMeta csClock wClockB := by
  refine ⟨rfl, rfl, rfl, by decide, by decide, ?_⟩
  intro hEq
  have h : (refreshFromServiceMeta csClock wClockA).2.1 =
      (refreshFromServiceMeta csClock wClockB).2.1 := congrArg (fun t => t.2.1) hEq
  have hA : (refreshFromServiceMeta csClock wClockA).2.1 = none := by decide
  have hB : (refreshFromServiceMeta csClock wClockB).2.1 =
      some "metadata token HTTP request failed: down" := by decide
  rw [hA, hB] at h
  cases h

/-- C6 amended: the freshness comparison uses the ambient clock reading
(the refresh routines take no timestamp parameter); given the service state
and that ambient reading, the refresh-or-skip decision of both caching
sources is determined: refresh is skipped iff `now + 5 minutes <
expiration`, independently of every other world component. -/
theorem clock_seam_amended
    (csm : awsMetadataCredentialService) (wm : MetaWorld)
    (csw : awsWebIdentityCredentialService) (ww : WebWorld) :
    (refreshFromServiceMeta csm wm = (csm, none, []) ↔
        wm.now + fiveMinutes < csm.expiration)
  ∧ (refreshFromServiceWeb csw ww = (csw, none, []) ↔
        ww.now + fiveMinutes < csw.expiration)
  ∧ (∀ wm' : MetaWorld, wm.now = wm'.now →
        (refreshFromServiceMeta csm wm = (csm, none, []) ↔
         refreshFromServiceMeta csm wm' = (csm, none, [])))
  ∧ (∀ ww' : WebWorld, ww.now = ww'.now →
        (refreshFromServiceWeb csw ww = (csw, none, []) ↔
         refreshFromServiceWeb csw ww' = (csw, none, []))) := by
  refine ⟨refreshMeta_skip_iff csm wm, refreshWeb_skip_iff csw ww, ?_, ?_⟩
  · intro wm' hnow
    rw [refreshMeta_skip_iff, refreshMeta_skip_iff, hnow]
  · intro ww' hnow
    rw [refreshWeb_skip_iff, refreshWeb_skip_iff, hnow]

/-- Witness for the amended C6: the skip decision at the shared clock
reading 0 agrees between the all-failing world and the all-succeeding
world. -/
theorem clock_seam_amended_witness :
    failMetaWorld.now = wCode.now
  ∧ (refreshFromServiceMeta csClock failMetaWorld = (csClock, none, []) ↔
      refreshFromServiceMeta csClock wCode = (csClock, none, [])) :=
  ⟨rfl,
   (clock_seam_amended csClock failMetaWorld {} failWebWorld).2.2.1 wCode rfl⟩

/-- C7 counterexample: only three environment variables are required, not
four. With access key, secret key and region set and both session-token
variables unset, `credentials()` succeeds with an empty session token
instead of failing over a fourth required variable. -/
theorem env_fourth_variable_counterexample :
    envThree sessionTokenEnvVar = none
  ∧ envThree securityTokenEnvVar = none
  ∧ envCredentials envThree =
      ({ AccessKey := "AKID", SecretKey := "SECRET", SessionToken := ""
         RegionName := "us-east-1" }, none) := by
  refine ⟨by decide, by decide, by decide⟩

/-- C7 amended: for the three required environment variables (access key,
secret key, region, in that order) `credentials()` fails naming exactly the
first missing one; with all three set it succeeds with their current
contents (the function reads the environment on every call — no caching),
taking the session token from the modern variable and falling back to the
legacy security-token variable when the modern one is empty. -/
theorem env_credentials_first_missing (env : Env) :
    (getenv env accessKeyEnvVar = "" →
        (envCredentials env).2 = some "no AWS_ACCESS_KEY_ID set in environment")
  ∧ (getenv env accessKeyEnvVar ≠ "" → getenv env secretKeyEnvVar = "" →
        (envCredentials env).2 = some "no AWS_SECRET_ACCESS_KEY set in environment")
  ∧ (getenv env accessKeyEnvVar ≠ "" → getenv env secretKeyEnvVar ≠ "" →
      getenv env awsRegionEnvVar = "" →
        (envCredentials env).2 = some "no AWS_REGION set in environment")
  ∧ (getenv env accessKeyEnvVar ≠ "" → getenv env secretKeyEnvVar ≠ "" →
      getenv env awsRegionEnvVar ≠ "" →
        envCredentials env =
          ({ AccessKey := getenv env accessKeyEnvVar
             SecretKey := getenv env secretKeyEnvVar
             SessionToken := if getenv env sessionTokenEnvVar = ""
                             then getenv env securityTokenEnvVar
                             else getenv env sessionTokenEnvVar
             RegionName := getenv env awsRegionEnvVar }, none)) := by
  refine ⟨?_, ?_, ?_, ?_⟩
  · intro h1
    simp only [accessKeyEnvVar] at h1
    simp [envCredentials, accessKeyEnvVar, h1]
  · intro h1 h2
    simp only [accessKeyEnvVar] at h1
    simp only [secretKeyEnvVar] at h2
    simp [envCredentials, accessKeyEnvVar, secretKeyEnvVar, h1, h2]
  · intro h1 h2 h3
    simp only [accessKeyEnvVar] at h1
    simp only [secretKeyEnvVar] at h2
    simp only [awsRegionEnvVar] at h3
    simp [envCredentials, accessKeyEnvVar, secretKeyEnvVar, awsRegionEnvVar, h1, h2, h3]
  · intro h1 h2 h3
    simp only [accessKeyEnvVar] at h1
    simp only [secretKeyEnvVar] at h2
    simp only [awsRegionEnvVar] at h3
    simp [envCredentials, accessKeyEnvVar, secretKeyEnvVar, awsRegionEnvVar, h1, h2, h3]

/-- Witness for the amended C7: the fixed-order errors on concrete
environments, and the legacy-token fallback. -/
theorem env_credentials_first_missing_witness :
    getenv noEnv accessKeyEnvVar = ""
  ∧ (envCredentials noEnv).2 = some "no AWS_ACCESS_KEY_ID set in environment"
  ∧ getenv envThree accessKeyEnvVar ≠ ""
  ∧ getenv envThree secretKeyEnvVar ≠ ""
  ∧ getenv envThree awsRegionEnvVar ≠ ""
  ∧ envCredentials envThree =
      ({ AccessKey := "AKID", SecretKey := "SECRET", SessionToken := ""
         RegionName := "us-east-1" }, none) :=
  ⟨by decide,
   (env_credentials_first_missing noEnv).1 (by decide),
   by decide, by decide, by decide,
   by
     have h := (env_credentials_first_missing envThree).2.2.2
       (by decide) (by decide) (by decide)
     rw [h]
     decide⟩

/-- C8: in the metadata refresh, the decoded payload's `Code` field is
required to equal "Success" only when a role name is configured (EC2 path),
a mismatch failing with an error containing the code value and leaving the
cache untouched; with no role name configured (ECS path) the payload is
accepted and the cache replaced without any `Code` validation. -/
theorem metadata_code_validation
    (cs : awsMetadataCredentialService) (w : MetaWorld) (p : metadataPayload)
    (hfresh : ¬ w.now + fiveMinutes < cs.expiration)
    (hhttp : ∀ r, w.httpDo r = .ok { statusCode := 200, status := "200 OK", body := "RESP" })
    (hparse : ∀ b, w.parseMetadata b = .ok p) :
    (cs.RoleName ≠ "" → p.Code ≠ "Success" →
        (refreshFromServiceMeta cs w).2.1 =
            some ("metadata service query did not succeed: " ++ p.Code)
      ∧ (refreshFromServiceMeta cs w).1 = cs)
  ∧ (cs.RoleName ≠ "" → p.Code = "Success" →
        (refreshFromServiceMeta cs w).2.1 = none)
  ∧ (cs.RoleName = "" → isECS w.env = true →
        (refreshFromServiceMeta cs w).2.1 = none
      ∧ (refreshFromServiceMeta cs w).1 =
          { cs with expiration := p.Expiration
                    creds := { AccessKey := p.AccessKeyID
                               SecretKey := p.SecretAccessKey
                               SessionToken := p.Token
                               RegionName := cs.RegionName } }) := by
  refine ⟨?_, ?_, ?_⟩
  · intro hrole hcode
    have hurl : urlForMetadataService cs w.env =
        .ok (if cs.credServicePath ≠ "" then cs.credServicePath ++ cs.RoleName
             else ec2DefaultCredServicePath ++ cs.RoleName) := by
      unfold urlForMetadataService
      by_cases hcsp : cs.credServicePath = "" <;> simp [hcsp, hrole]
    unfold refreshFromServiceMeta
    rw [if_neg hfresh, hurl]
    by_cases hecs : isECS w.env <;>
      simp [hecs, metaFetchAndStore, doMetaDataRequestWithClient, hhttp, hparse,
        hrole, hcode]
  · intro hrole hcode
    have hurl : urlForMetadataService cs w.env =
        .ok (if cs.credServicePath ≠ "" then cs.credServicePath ++ cs.RoleName
             else ec2DefaultCredServicePath ++ cs.RoleName) := by
      unfold urlForMetadataService
      by_cases hcsp : cs.credServicePath = "" <;> simp [hcsp, hrole]
    unfold refreshFromServiceMeta
    rw [if_neg hfresh, hurl]
    by_cases hecs : isECS w.env <;>
      simp [hecs, metaFetchAndStore, doMetaDataRequestWithClient, hhttp, hparse, hcode]
  · intro hrole hecs
    have hurl : urlForMetadataService cs w.env =
        .ok (if cs.credServicePath ≠ "" then cs.credServicePath ++ cs.RoleName
             else ecsDefaultCredServicePath ++ getenv w.env ecsRelativePathEnvVar) := by
      unfold urlForMetadataService
      by_cases hcsp : cs.credServicePath = "" <;> simp [hcsp, hrole, hecs]
    unfold refreshFromServiceMeta
    rw [if_neg hfresh, hurl]
    simp [hecs, metaFetchAndStore, doMetaDataRequestWithClient, hhttp, hparse, hrole]

/-- Witness for C8: the EC2-configured service rejects `Code = "Failure"`
with the code value in the error and keeps its cache, while the
ECS-configured service accepts the very same payload and stores it. -/
theorem metadata_code_validation_witness :
    (¬ (0 : Int) + fiveMinutes < (0 : Int))
  ∧ ({ RoleName := "my_iam_role" } : awsMetadataCredentialService).RoleName ≠ ""
  ∧ pFail.Code ≠ "Success"
  ∧ (refreshFromServiceMeta { RoleName := "my_iam_role" } wCode).2.1 =
      some "metadata service query did not succeed: Failure"
  ∧ (refreshFromServiceMeta { RoleName := "my_iam_role" } wCode).1 =
      ({ RoleName := "my_iam_role" } : awsMetadataCredentialService)
  ∧ (refreshFromServiceMeta {} wCodeECS).2.1 = none
  ∧ (refreshFromServiceMeta {} wCodeECS).1 =
      { ({} : awsMetadataCredentialService) with
          expiration := pFail.Expiration
          creds := { AccessKey := pFail.AccessKeyID
                     SecretKey := pFail.SecretAccessKey
                     SessionToken := pFail.Token
                     RegionName := "" } } :=
  ⟨by decide, by decide, by decide,
   ((metadata_code_validation { RoleName := "my_iam_role" } wCode pFail (by decide)
       (fun _ => rfl) (fun _ => rfl)).1 (by decide) (by decide)).1,
   ((metadata_code_validation { RoleName := "my_iam_role" } wCode pFail (by decide)
       (fun _ => rfl) (fun _ => rfl)).1 (by decide) (by decide)).2,
   ((metadata_code_validation {} wCodeECS pFail (by decide)
       (fun _ => rfl) (fun _ => rfl)).2.2 rfl (by decide)).1,
   ((metadata_code_validation {} wCodeECS pFail (by decide)
       (fun _ => rfl) (fun _ => rfl)).2.2 rfl (by decide)).2⟩

/-- C10: `populateFromEnv` is not atomic on failure: it overwrites the
role-ARN field (and then the token-file field) with the environment's value
before checking it, so a missing required variable yields an error with the
corresponding field already reset to empty — even if it previously held a
valid value; only an already non-empty region field is preserved. -/
theorem populateFromEnv_overwrites_before_check
    (cs : awsWebIdentityCredentialService) (env : Env) :
    (getenv env awsRoleArnEnvVar = "" →
        populateFromEnv cs env =
          ({ cs with RoleArn := "" }, some "no AWS_ROLE_ARN set in environment"))
  ∧ (getenv env awsRoleArnEnvVar ≠ "" → getenv env awsWebIdentityTokenFileEnvVar = "" →
        populateFromEnv cs env =
          ({ cs with RoleArn := getenv env awsRoleArnEnvVar, WebIdentityTokenFile := "" },
           some "no AWS_WEB_IDENTITY_TOKEN_FILE set in environment"))
  ∧ (cs.RegionName ≠ "" → getenv env awsRoleArnEnvVar ≠ "" →
      getenv env awsWebIdentityTokenFileEnvVar ≠ "" →
        populateFromEnv cs env =
          ({ cs with RoleArn := getenv env awsRoleArnEnvVar
                     WebIdentityTokenFile := getenv env awsWebIdentityTokenFileEnvVar },
           none)) := by
  refine ⟨?_, ?_, ?_⟩
  · intro h1
    simp only [awsRoleArnEnvVar] at h1
    simp [populateFromEnv, awsRoleArnEnvVar, h1]
  · intro h1 h2
    simp only [awsRoleArnEnvVar] at h1
    simp only [awsWebIdentityTokenFileEnvVar] at h2
    simp [populateFromEnv, awsRoleArnEnvVar, awsWebIdentityTokenFileEnvVar, h1, h2]
  · intro hR h1 h2
    simp only [awsRoleArnEnvVar] at h1
    simp only [awsWebIdentityTokenFileEnvVar] at h2
    simp [populateFromEnv, awsRoleArnEnvVar, awsWebIdentityTokenFileEnvVar, h1, h2, hR]

/-- Witness for C10: with an empty environment, a state holding previously
valid configuration loses its role ARN (reset to `""`) while the call
errors, the token file still untouched; with role ARN present but the token
file missing, the token-file field is reset while the new role ARN
sticks. -/
theorem populateFromEnv_overwrites_before_check_witness :
    getenv noEnv awsRoleArnEnvVar = ""
  ∧ csWebOld.RoleArn ≠ ""
  ∧ populateFromEnv csWebOld noEnv =
      ({ csWebOld with RoleArn := "" }, some "no AWS_ROLE_ARN set in environment")
  ∧ populateFromEnv csWebOld (fun k => if k = awsRoleArnEnvVar then some "new-arn" else none) =
      ({ csWebOld with RoleArn := "new-arn", WebIdentityTokenFile := "" },
       some "no AWS_WEB_IDENTITY_TOKEN_FILE set in environment") :=
  ⟨by decide, by decide,
   (populateFromEnv_overwrites_before_check csWebOld noEnv).1 (by decide),
   by
     have h := (populateFromEnv_overwrites_before_check csWebOld
       (fun k => if k = awsRoleArnEnvVar then some "new-arn" else none)).2.1
       (by decide) (by decide)
     rw [h]
     decide⟩

end AwsRest
